import Mathlib

/-!
Shallow embedding of the MIT FrED user interface (src/user_interface.py) and,
where the control core is absent from the sources, models built from the
design document. All real-valued quantities are embedded as rationals, which
represent the decimal literals of the program exactly.
-/

/-- Clamp a value into the interval from lo to hi, as max lo (min hi x)
written with explicit comparisons so that it evaluates by decide. -/
def clamp (lo hi x : ℚ) : ℚ :=
  if x ≤ hi then (if lo ≤ x then x else lo) else (if lo ≤ hi then hi else lo)

/-- Integer clamp, for Qt sliders whose values are integers. -/
def clampInt (lo hi x : ℤ) : ℤ :=
  if x ≤ hi then (if lo ≤ x then x else lo) else (if lo ≤ hi then hi else lo)

/-- Embedding of a Qt QDoubleSpinBox: the fields the program reads or writes.
Qt keeps value inside the minimum/maximum range. -/
structure QDoubleSpinBox where
  minimum : ℚ
  maximum : ℚ
  value : ℚ
  singleStep : ℚ
  decimals : Nat
deriving DecidableEq

/-- Qt default-constructed QDoubleSpinBox: range 0 to 99.99, value 0. -/
def QDoubleSpinBox.default : QDoubleSpinBox :=
  { minimum := 0, maximum := 99.99, value := 0, singleStep := 1, decimals := 2 }

/-- setMinimum: store the new minimum and re-clamp the value into range. -/
def QDoubleSpinBox.setMinimum (b : QDoubleSpinBox) (m : ℚ) : QDoubleSpinBox :=
  { b with minimum := m, value := clamp m b.maximum b.value }

/-- setMaximum: store the new maximum and re-clamp the value into range. -/
def QDoubleSpinBox.setMaximum (b : QDoubleSpinBox) (m : ℚ) : QDoubleSpinBox :=
  { b with maximum := m, value := clamp b.minimum m b.value }

/-- setValue clamps the requested value into the box range. Every value the
program ever sets is exactly representable at the configured decimals, so
decimal rounding is the identity here and is not modelled separately. -/
def QDoubleSpinBox.setValue (b : QDoubleSpinBox) (v : ℚ) : QDoubleSpinBox :=
  { b with value := clamp b.minimum b.maximum v }

/-- setSingleStep only stores the step size. -/
def QDoubleSpinBox.setSingleStep (b : QDoubleSpinBox) (s : ℚ) : QDoubleSpinBox :=
  { b with singleStep := s }

/-- setDecimals only stores the display precision. -/
def QDoubleSpinBox.setDecimals (b : QDoubleSpinBox) (d : Nat) : QDoubleSpinBox :=
  { b with decimals := d }

/-- Embedding of a Qt QSlider: integer-valued with a clamped range. -/
structure QSlider where
  minimum : ℤ
  maximum : ℤ
  value : ℤ
deriving DecidableEq

/-- Qt default-constructed QSlider: range 0 to 99, value 0. -/
def QSlider.default : QSlider := { minimum := 0, maximum := 99, value := 0 }

/-- setMinimum for a slider re-clamps the value into the new range. -/
def QSlider.setMinimum (s : QSlider) (m : ℤ) : QSlider :=
  { s with minimum := m, value := clampInt m s.maximum s.value }

/-- setMaximum for a slider re-clamps the value into the new range. -/
def QSlider.setMaximum (s : QSlider) (m : ℤ) : QSlider :=
  { s with maximum := m, value := clampInt s.minimum m s.value }

/-- setValue for a slider clamps the requested value into the range. -/
def QSlider.setValue (s : QSlider) (v : ℤ) : QSlider :=
  { s with value := clampInt s.minimum s.maximum v }

/-- add_diameter_controls (user_interface.py lines 78-90): spin box with
range 0.3 to 0.6, initial value 0.35. -/
def add_diameter_controls : QDoubleSpinBox :=
  ((((QDoubleSpinBox.default.setMinimum 0.3).setMaximum 0.6).setValue
      0.35).setSingleStep 0.01).setDecimals 2

/-- add_motor_controls (lines 136-148): extrusion motor speed spin box,
range 0 to 20, initial value 0. -/
def add_motor_controls : QDoubleSpinBox :=
  ((((QDoubleSpinBox.default.setMinimum 0).setMaximum 20).setValue
      0).setSingleStep 0.1).setDecimals 2

/-- add_temperature_controls (lines 150-191): temperature setpoint slider
(65 to 105, initial 95) and the Kp, Ki, Kd spin boxes (each 0 to 2, initial
1.4, 0.2 and 0.8). -/
def add_temperature_controls : QSlider × QDoubleSpinBox × QDoubleSpinBox × QDoubleSpinBox :=
  (((QSlider.default.setMinimum 65).setMaximum 105).setValue 95,
   ((((QDoubleSpinBox.default.setMinimum 0).setMaximum 2).setValue
       1.4).setSingleStep 0.1).setDecimals 5,
   ((((QDoubleSpinBox.default.setMinimum 0).setMaximum 2).setValue
       0.2).setSingleStep 0.1).setDecimals 5,
   ((((QDoubleSpinBox.default.setMinimum 0).setMaximum 2).setValue
       0.8).setSingleStep 0.1).setDecimals 5)

/-- add_fan_controls (lines 193-204): fan duty cycle slider, 0 to 100,
initial value 30. -/
def add_fan_controls : QSlider :=
  ((QSlider.default.setMinimum 0).setMaximum 100).setValue 30

/-- add_heater_open_loop_pwm_control (lines 206-218): spin box 0 to 100,
initial value 0. -/
def add_heater_open_loop_pwm_control : QDoubleSpinBox :=
  ((((QDoubleSpinBox.default.setMinimum 0).setMaximum 100).setValue
      0).setSingleStep 1).setDecimals 0

/-- add_dc_motor_controls (lines 220-232): spin box 0 to 100, initial 0. -/
def add_dc_motor_controls : QDoubleSpinBox :=
  ((((QDoubleSpinBox.default.setMinimum 0).setMaximum 100).setValue
      0).setSingleStep 1).setDecimals 0

/-- add_motor_pid_controls (lines 92-134): motor setpoint (0 to 60, initial
30) and motor Kp, Ki, Kd spin boxes (0 to 10, initial 0.4, 0.2, 0.05). -/
def add_motor_pid_controls : QDoubleSpinBox × QDoubleSpinBox × QDoubleSpinBox × QDoubleSpinBox :=
  (((((QDoubleSpinBox.default.setMinimum 0).setMaximum 60).setValue
       30).setSingleStep 1).setDecimals 1,
   ((((QDoubleSpinBox.default.setMinimum 0).setMaximum 10).setValue
       0.4).setSingleStep 0.1).setDecimals 3,
   ((((QDoubleSpinBox.default.setMinimum 0).setMaximum 10).setValue
       0.2).setSingleStep 0.1).setDecimals 3,
   ((((QDoubleSpinBox.default.setMinimum 0).setMaximum 10).setValue
       0.05).setSingleStep 0.01).setDecimals 3)

/-- The documented fallback diameter coefficient substituted at line 54 when
no camera calibration data is found. -/
def fallback_diameter_coefficient : ℚ := 0.00782324

/-- Embedding of lines 51-54 of UserInterface.__init__: given the coefficient
stored by the FiberCamera, return the coefficient active after construction
together with whether the calibration-required message was shown. The code
tests the stored value against the sentinel -1 only; any other stored value
stays active unchanged and shows no message. -/
def initDiameterCoefficient (stored : ℚ) : ℚ × Bool :=
  if stored = -1 then (fallback_diameter_coefficient, true) else (stored, false)

/-- State of the user interface relevant to the claims: the mutable widget
values and the boolean mode flags of UserInterface.__init__ (lines 24-54),
plus whether show_message has been invoked. -/
structure UserInterface where
  target_diameter : QDoubleSpinBox
  extrusion_motor_speed : QDoubleSpinBox
  target_temperature : QSlider
  temperature_kp : QDoubleSpinBox
  temperature_ki : QDoubleSpinBox
  temperature_kd : QDoubleSpinBox
  fan_duty_cycle : QSlider
  heater_open_loop_pwm : QDoubleSpinBox
  dc_motor_pwm : QDoubleSpinBox
  motor_setpoint : QDoubleSpinBox
  motor_kp : QDoubleSpinBox
  motor_ki : QDoubleSpinBox
  motor_kd : QDoubleSpinBox
  device_started : Bool
  start_motor_calibration : Bool
  heater_open_loop_enabled : Bool
  dc_motor_open_loop_enabled : Bool
  camera_feedback_enabled : Bool
  dc_motor_close_loop_enabled : Bool
  break_level1_enabled : Bool
  break_level2_enabled : Bool
  break_level3_enabled : Bool
  diameter_coefficient : ℚ
  message_shown : Bool
deriving DecidableEq

/-- Embedding of UserInterface.__init__ (lines 18-54), parameterised by the
diameter coefficient the FiberCamera loaded from its calibration data
(-1 when the data is absent). Widgets are built by the add_* helpers, all
state flags start False (lines 40-48), and the coefficient fallback check of
lines 52-54 runs last. -/
def UserInterface.init (stored : ℚ) : UserInterface :=
  { target_diameter := add_diameter_controls
    extrusion_motor_speed := add_motor_controls
    target_temperature := add_temperature_controls.1
    temperature_kp := add_temperature_controls.2.1
    temperature_ki := add_temperature_controls.2.2.1
    temperature_kd := add_temperature_controls.2.2.2
    fan_duty_cycle := add_fan_controls
    heater_open_loop_pwm := add_heater_open_loop_pwm_control
    dc_motor_pwm := add_dc_motor_controls
    motor_setpoint := add_motor_pid_controls.1
    motor_kp := add_motor_pid_controls.2.1
    motor_ki := add_motor_pid_controls.2.2.1
    motor_kd := add_motor_pid_controls.2.2.2
    device_started := false
    start_motor_calibration := false
    heater_open_loop_enabled := false
    dc_motor_open_loop_enabled := false
    camera_feedback_enabled := false
    dc_motor_close_loop_enabled := false
    break_level1_enabled := false
    break_level2_enabled := false
    break_level3_enabled := false
    diameter_coefficient := (initDiameterCoefficient stored).1
    message_shown := (initDiameterCoefficient stored).2 }

/-- Embedding of UserInterface.start_motor_sequence (lines 244-252): set the
DC motor PWM to 30, extrusion speed to 0.6, fan duty cycle to 100, the
temperature setpoint to 95, enable DC motor open loop, mark the device
started, and show a message. -/
def UserInterface.start_motor_sequence (s : UserInterface) : UserInterface :=
  { s with
    dc_motor_pwm := s.dc_motor_pwm.setValue 30
    extrusion_motor_speed := s.extrusion_motor_speed.setValue 0.6
    fan_duty_cycle := s.fan_duty_cycle.setValue 100
    target_temperature := s.target_temperature.setValue 95
    dc_motor_open_loop_enabled := true
    device_started := true
    message_shown := true }

/-- The widget ranges fixed at construction and never changed afterwards by
the program: the ranges of the four widgets start_motor_sequence writes. -/
def UserInterface.rangesIntact (s : UserInterface) : Prop :=
  s.dc_motor_pwm.minimum = 0 ∧ s.dc_motor_pwm.maximum = 100 ∧
  s.extrusion_motor_speed.minimum = 0 ∧ s.extrusion_motor_speed.maximum = 20 ∧
  s.fan_duty_cycle.minimum = 0 ∧ s.fan_duty_cycle.maximum = 100 ∧
  s.target_temperature.minimum = 65 ∧ s.target_temperature.maximum = 105

/-- Embedding of UserInterface.start_gui (line 257): the period in
milliseconds of the QTimer driving fiber_camera.camera_loop. -/
def start_gui_timer_period_ms : Nat := 200

/-- The three data series of UserInterface.Plot (lines 282-284). -/
structure Plot where
  x_data : List ℚ
  y_data : List ℚ
  setpoint_data : List ℚ
deriving DecidableEq

/-- Plot.__init__ starts all three series empty. -/
def Plot.empty : Plot := { x_data := [], y_data := [], setpoint_data := [] }

/-- Embedding of Plot.update_plot (lines 286-296): append one sample to each
of the three series (the remaining lines only redraw the figure). -/
def Plot.update_plot (p : Plot) (x y setpoint : ℚ) : Plot :=
  { x_data := p.x_data ++ [x]
    y_data := p.y_data ++ [y]
    setpoint_data := p.setpoint_data ++ [setpoint] }

/-- Run a sequence of update_plot calls, one per listed (x, y, setpoint)
triple. -/
def Plot.runUpdates (p : Plot) : List (ℚ × ℚ × ℚ) → Plot
  | [] => p
  | (x, y, sp) :: rest => (p.update_plot x y sp).runUpdates rest

/-- Modelled from the spec: gains and output limits of one PID control
channel (design document sections 3 and 4.1); the PID Controller unit is not
among the visible sources. -/
structure PidParams where
  kp : ℚ
  ki : ℚ
  kd : ℚ
  lo : ℚ
  hi : ℚ
deriving DecidableEq

/-- Modelled from the spec: per-channel PID accumulator (PidState, design
document section 3). -/
structure PidState where
  integral_sum : ℚ
  previous_error : ℚ
deriving DecidableEq

/-- The output the controller would produce after accumulating the current
error into the integral: Kp*e + Ki*(integral + e*dt) + Kd*(e - prev)/dt. -/
def PidParams.rawAcc (p : PidParams) (s : PidState) (e dt : ℚ) : ℚ :=
  p.kp * e + p.ki * (s.integral_sum + e * dt) + p.kd * (e - s.previous_error) / dt

/-- The output the controller produces when integral accumulation is
skipped: the same three terms with the integral left unchanged. -/
def PidParams.rawSkip (p : PidParams) (s : PidState) (e dt : ℚ) : ℚ :=
  p.kp * e + p.ki * s.integral_sum + p.kd * (e - s.previous_error) / dt

/-- Modelled from the spec: the anti-windup condition of section 4.1 —
accumulation is skipped while the produced output would exceed the output
limits and the error has the same sign as the clamp direction. -/
def PidParams.skip (p : PidParams) (s : PidState) (e dt : ℚ) : Bool :=
  (decide (p.hi < p.rawAcc s e dt) && decide (0 < e)) ||
  (decide (p.rawAcc s e dt < p.lo) && decide (e < 0))

/-- Modelled from the spec: PID Controller advance (section 4.1), absent
from the visible sources. Returns the clamped output, the side signal
reporting whether clamping occurred, and the next PidState. -/
def PidParams.advance (p : PidParams) (s : PidState) (e dt : ℚ) : ℚ × Bool × PidState :=
  let raw := if p.skip s e dt = true then p.rawSkip s e dt else p.rawAcc s e dt
  (clamp p.lo p.hi raw,
   decide (raw < p.lo) || decide (p.hi < raw),
   { integral_sum := if p.skip s e dt = true then s.integral_sum else s.integral_sum + e * dt,
     previous_error := e })

/-- Iterate advance over a list of (error, dt) inputs, returning the final
PidState. -/
def PidParams.run (p : PidParams) (s : PidState) : List (ℚ × ℚ) → PidState
  | [] => s
  | (e, dt) :: rest => p.run (p.advance s e dt).2.2 rest

/-- Every call of the sequence is a valid tick (dt positive) whose output is
pinned at an output limit with clamping reported and with the error of the
same sign as the clamp direction. -/
def PidParams.saturatedRun (p : PidParams) (s : PidState) : List (ℚ × ℚ) → Bool
  | [] => true
  | (e, dt) :: rest =>
      decide (0 < dt) &&
      ((decide (0 < e) && decide ((p.advance s e dt).1 = p.hi)) ||
       (decide (e < 0) && decide ((p.advance s e dt).1 = p.lo))) &&
      (p.advance s e dt).2.1 &&
      p.saturatedRun (p.advance s e dt).2.2 rest

/-- PID parameters of the heater channel in the end-to-end scenario of the
design document section 8: Kp 1.4, Ki 0.2, Kd 0.8, output limits 0 to 100. -/
def heaterParams : PidParams := { kp := 1.4, ki := 0.2, kd := 0.8, lo := 0, hi := 100 }

/-- A freshly constructed (or reset) PID state. -/
def freshPid : PidState := { integral_sum := 0, previous_error := 0 }

/-- Modelled from the spec: outcome of the Calibration Manager (section
4.3), absent from the visible sources. -/
inductive CalibResult where
  | ok (coeff : ℚ)
  | insufficientSamples
  | invalidReference
deriving DecidableEq

/-- Modelled from the spec: minimum sample count of the Calibration Manager
(default 5). -/
def minCalibrationSamples : Nat := 5

/-- Modelled from the spec: Calibration Manager calibrate (section 4.3) —
fail on a non-positive reference or on fewer than the minimum number of
samples, otherwise compute reference divided by the mean pixel width. -/
def calibrate (reference : ℚ) (samples : List ℚ) : CalibResult :=
  if reference ≤ 0 then CalibResult.invalidReference
  else if samples.length < minCalibrationSamples then CalibResult.insufficientSamples
  else CalibResult.ok (reference / (samples.sum / samples.length))

/-- True when a calibration attempt failed. -/
def CalibResult.failed : CalibResult → Bool
  | .ok _ => false
  | _ => true

/-- Modelled from the spec: the coefficient active after a calibration
attempt — the computed coefficient on success, the previous one on failure
(section 4.3: on failure the previous coefficient remains active). -/
def applyCalibration (prev : ℚ) : CalibResult → ℚ
  | .ok c => c
  | _ => prev

/-- Modelled from the spec: channel mode (section 3). -/
inductive Mode where
  | OpenLoop
  | ClosedLoop
  | Disabled
deriving DecidableEq

/-- Modelled from the spec: one control channel as owned by the Control Loop
Scheduler (sections 3 and 4.2); the scheduler is absent from the visible
sources. -/
structure Channel where
  setpoint : ℚ
  measured : ℚ
  params : PidParams
  mode : Mode
  operator_value : ℚ
  output : ℚ
  safe_value : ℚ
  pid : PidState
deriving DecidableEq

/-- Modelled from the spec: scheduler steps 2 and 3 of section 4.2 for one
channel — ClosedLoop advances the PID on error = setpoint - measured,
OpenLoop passes the operator value through, Disabled leaves the channel
alone. -/
def Channel.controlStep (c : Channel) (dt : ℚ) : Channel :=
  match c.mode with
  | Mode.ClosedLoop =>
      { c with
        output := (c.params.advance c.pid (c.setpoint - c.measured) dt).1
        pid := (c.params.advance c.pid (c.setpoint - c.measured) dt).2.2 }
  | Mode.OpenLoop => { c with output := c.operator_value }
  | Mode.Disabled => c

/-- Modelled from the spec: operator commands that change a channel mode
(section 4.2). -/
inductive Command where
  | enableClosedLoop
  | setOpenLoop (v : ℚ)
  | disable
deriving DecidableEq

/-- Modelled from the spec: apply one operator command to a channel; a
transition into ClosedLoop resets the PidState first (section 4.2). -/
def Channel.applyCommand (c : Channel) : Command → Channel
  | Command.enableClosedLoop => { c with mode := Mode.ClosedLoop, pid := freshPid }
  | Command.setOpenLoop v => { c with mode := Mode.OpenLoop, operator_value := v }
  | Command.disable => { c with mode := Mode.Disabled }

/-- Apply a command to the channel at the given index. -/
def applyCommandAt : List Channel → Nat → Command → List Channel
  | [], _, _ => []
  | c :: cs, 0, cmd => c.applyCommand cmd :: cs
  | c :: cs, Nat.succ i, cmd => c :: applyCommandAt cs i cmd

/-- Apply a queue of pending (index, command) pairs in order. -/
def applyPending (channels : List Channel) : List (Nat × Command) → List Channel
  | [] => channels
  | (i, cmd) :: rest => applyPending (applyCommandAt channels i cmd) rest

/-- Modelled from the spec: the Control Loop Scheduler state — the channel
set, the three break levels of the InterlockState, and the queue of operator
commands held pending while tripped (sections 3 and 4.2). -/
structure Scheduler where
  channels : List Channel
  break_level1 : Bool
  break_level2 : Bool
  break_level3 : Bool
  pending : List (Nat × Command)
deriving DecidableEq

/-- Any break level tripped. -/
def Scheduler.tripped (s : Scheduler) : Bool :=
  s.break_level1 || s.break_level2 || s.break_level3

/-- Modelled from the spec: scheduler step 4 of section 4.2 — when any break
level is tripped, override all channel outputs with their safe values and
move every channel to Disabled. -/
def interlockOverride (s : Scheduler) : Scheduler :=
  if s.tripped = true then
    { s with channels :=
        s.channels.map (fun c => { c with mode := Mode.Disabled, output := c.safe_value }) }
  else s

/-- Modelled from the spec: one scheduler tick (section 4.2) — run the
per-channel control step, then evaluate the interlocks. -/
def Scheduler.tick (s : Scheduler) (dt : ℚ) : Scheduler :=
  interlockOverride { s with channels := s.channels.map (fun c => c.controlStep dt) }

/-- Modelled from the spec: an operator command arriving at the scheduler —
held pending while the interlock is tripped, applied at once otherwise
(section 4.2: transition requests while tripped are accepted but held
pending). -/
def Scheduler.issue (s : Scheduler) (i : Nat) (cmd : Command) : Scheduler :=
  if s.tripped = true then { s with pending := s.pending ++ [(i, cmd)] }
  else { s with channels := applyCommandAt s.channels i cmd }

/-- Modelled from the spec: operator interlock acknowledgment — clear the
break levels and apply the commands held pending (sections 3 and 4.2). -/
def Scheduler.acknowledge_interlock (s : Scheduler) : Scheduler :=
  { channels := applyPending s.channels s.pending
    break_level1 := false
    break_level2 := false
    break_level3 := false
    pending := [] }

/-- A concrete one-channel scheduler with break level 1 tripped, used to
instantiate the interlock theorem. -/
def sampleScheduler : Scheduler :=
  { channels := [{ setpoint := 95, measured := 25, params := heaterParams,
                   mode := Mode.ClosedLoop, operator_value := 0, output := 50,
                   safe_value := 0, pid := freshPid }]
    break_level1 := true
    break_level2 := false
    break_level3 := false
    pending := [] }

/-- Lengths of the three series after a run of update_plot calls: each grows
by exactly the number of calls. -/
theorem Plot.runUpdates_lengths (calls : List (ℚ × ℚ × ℚ)) : ∀ (p : Plot),
    (p.runUpdates calls).x_data.length = p.x_data.length + calls.length ∧
    (p.runUpdates calls).y_data.length = p.y_data.length + calls.length ∧
    (p.runUpdates calls).setpoint_data.length = p.setpoint_data.length + calls.length := by
  induction calls with
  | nil => intro p; simp [Plot.runUpdates]
  | cons hd tl ih =>
      intro p
      obtain ⟨x, y, sp⟩ := hd
      have h := ih (p.update_plot x y sp)
      simp only [Plot.runUpdates, Plot.update_plot, List.length_append,
        List.length_cons, List.length_nil] at h ⊢
      omega

/-- Claim C6: the periodic measurement loop (the QTimer of start_gui that
drives fiber_camera.camera_loop) runs at a fixed 200 ms period, which lies
within the nominal 100 to 200 ms range. -/
theorem C6_tick_period_in_range :
    100 ≤ start_gui_timer_period_ms ∧ start_gui_timer_period_ms ≤ 200 := by
  decide

/-- Claim C7: the temperature controls are constructed with exactly the
values of the end-to-end scenario — setpoint 95, Kp 1.4, Ki 0.2, Kd 0.8. -/
theorem C7_temperature_controls_initial_values :
    add_temperature_controls.1.value = 95 ∧
    add_temperature_controls.2.1.value = 1.4 ∧
    add_temperature_controls.2.2.1.value = 0.2 ∧
    add_temperature_controls.2.2.2.value = 0.8 := by
  refine ⟨?_, ?_, ?_, ?_⟩ <;>
    norm_num [add_temperature_controls, QSlider.default, QSlider.setMinimum,
      QSlider.setMaximum, QSlider.setValue, QDoubleSpinBox.default,
      QDoubleSpinBox.setMinimum, QDoubleSpinBox.setMaximum, QDoubleSpinBox.setValue,
      QDoubleSpinBox.setSingleStep, QDoubleSpinBox.setDecimals, clamp, clampInt]

/-- Claim C9: a freshly constructed UserInterface is fully disengaged —
device_started, start_motor_calibration, heater_open_loop_enabled,
dc_motor_open_loop_enabled, camera_feedback_enabled,
dc_motor_close_loop_enabled and the three break-level flags are all false,
whatever coefficient the camera loaded. -/
theorem C9_fresh_ui_disengaged (stored : ℚ) :
    (UserInterface.init stored).device_started = false ∧
    (UserInterface.init stored).start_motor_calibration = false ∧
    (UserInterface.init stored).heater_open_loop_enabled = false ∧
    (UserInterface.init stored).dc_motor_open_loop_enabled = false ∧
    (UserInterface.init stored).camera_feedback_enabled = false ∧
    (UserInterface.init stored).dc_motor_close_loop_enabled = false ∧
    (UserInterface.init stored).break_level1_enabled = false ∧
    (UserInterface.init stored).break_level2_enabled = false ∧
    (UserInterface.init stored).break_level3_enabled = false :=
  ⟨rfl, rfl, rfl, rfl, rfl, rfl, rfl, rfl, rfl⟩

/-- Claim C10: update_plot appends exactly one element to each of x_data,
y_data and setpoint_data, and after any sequence of n calls on a fresh Plot
all three series have length n. -/
theorem C10_update_plot_appends :
    (∀ (p : Plot) (x y sp : ℚ),
       (p.update_plot x y sp).x_data.length = p.x_data.length + 1 ∧
       (p.update_plot x y sp).y_data.length = p.y_data.length + 1 ∧
       (p.update_plot x y sp).setpoint_data.length = p.setpoint_data.length + 1) ∧
    (∀ calls : List (ℚ × ℚ × ℚ),
       (Plot.empty.runUpdates calls).x_data.length = calls.length ∧
       (Plot.empty.runUpdates calls).y_data.length = calls.length ∧
       (Plot.empty.runUpdates calls).setpoint_data.length = calls.length) := by
  constructor
  · intro p x y sp
    simp [Plot.update_plot]
  · intro calls
    have h := Plot.runUpdates_lengths calls Plot.empty
    simpa [Plot.empty] using h

/-- Claim C1 counterexample: a stored coefficient of exactly 0 stays active
after construction — the resulting coefficient is 0 (neither positive nor
the fallback constant) and no calibration-required message is shown. -/
theorem C1_counterexample :
    (initDiameterCoefficient 0).1 = 0 ∧
    (initDiameterCoefficient 0).2 = false ∧
    ¬ (0 < (initDiameterCoefficient 0).1) ∧
    (initDiameterCoefficient 0).1 ≠ fallback_diameter_coefficient := by
  norm_num [initDiameterCoefficient, fallback_diameter_coefficient]

/-- Claim C1 (amended): after construction the active coefficient is either
the documented positive fallback constant — exactly when the stored
coefficient is the sentinel -1, in which case the calibration-required
message is shown — or the stored coefficient unchanged with no message. -/
theorem C1_coefficient_after_init (stored : ℚ) :
    ((initDiameterCoefficient stored).1 = fallback_diameter_coefficient ∧
     0 < (initDiameterCoefficient stored).1 ∧
     (initDiameterCoefficient stored).2 = true ∧ stored = -1) ∨
    ((initDiameterCoefficient stored).1 = stored ∧
     (initDiameterCoefficient stored).2 = false) := by
  by_cases h : stored = -1
  · left
    refine ⟨?_, ?_, ?_, h⟩ <;>
      norm_num [initDiameterCoefficient, fallback_diameter_coefficient, h]
  · right
    constructor <;> simp [initDiameterCoefficient, h]

/-- Claim C2: a fallback coefficient is never substituted silently — whenever
construction leaves a coefficient different from the stored one, the
calibration-required message was shown — and a failed calibration leaves the
previous coefficient active. -/
theorem C2_fallback_never_silent (stored reference prev : ℚ) (samples : List ℚ)
    (h1 : (initDiameterCoefficient stored).1 ≠ stored)
    (h2 : (calibrate reference samples).failed = true) :
    (initDiameterCoefficient stored).2 = true ∧
    applyCalibration prev (calibrate reference samples) = prev := by
  constructor
  · by_cases h : stored = -1
    · simp [initDiameterCoefficient, h]
    · exact absurd (by simp [initDiameterCoefficient, h]) h1
  · cases hc : calibrate reference samples with
    | ok c => rw [hc, CalibResult.failed] at h2; cases h2
    | insufficientSamples => rfl
    | invalidReference => rfl

/-- Witness for C2 at stored -1, reference 0, no samples, previous
coefficient 42: the hypotheses hold there and the conclusion follows. -/
theorem C2_fallback_never_silent_witness :
    (initDiameterCoefficient (-1)).1 ≠ (-1 : ℚ) ∧
    (calibrate 0 []).failed = true ∧
    ((initDiameterCoefficient (-1)).2 = true ∧
     applyCalibration 42 (calibrate 0 []) = 42) := by
  have h1 : (initDiameterCoefficient (-1)).1 ≠ (-1 : ℚ) := by
    norm_num [initDiameterCoefficient, fallback_diameter_coefficient]
  have h2 : (calibrate 0 []).failed = true := by
    norm_num [calibrate, CalibResult.failed]
  exact ⟨h1, h2, C2_fallback_never_silent (-1) 0 42 [] h1 h2⟩

/-- When an advance call reports clamping with its output pinned at the limit
on the side matching the error sign, the integral was not accumulated. -/
theorem advance_pinned_integral (p : PidParams) (s : PidState) (e dt : ℚ)
    (hlh : p.lo < p.hi)
    (hpin : (0 < e ∧ (p.advance s e dt).1 = p.hi) ∨
            (e < 0 ∧ (p.advance s e dt).1 = p.lo))
    (hcl : (p.advance s e dt).2.1 = true) :
    (p.advance s e dt).2.2.integral_sum = s.integral_sum := by
  by_cases hsk : p.skip s e dt = true
  · simp [PidParams.advance, hsk]
  · exfalso
    have hsk' : p.skip s e dt = false := by
      cases h : p.skip s e dt
      · rfl
      · exact absurd h hsk
    have h1 : ¬ (p.hi < p.rawAcc s e dt ∧ 0 < e) := by
      rintro ⟨ha, hb⟩
      have : p.skip s e dt = true := by
        simp [PidParams.skip, ha, hb]
      rw [this] at hsk'
      cases hsk'
    have h2 : ¬ (p.rawAcc s e dt < p.lo ∧ e < 0) := by
      rintro ⟨ha, hb⟩
      have : p.skip s e dt = true := by
        simp [PidParams.skip, ha, hb]
      rw [this] at hsk'
      cases hsk'
    simp only [PidParams.advance, hsk', Bool.false_eq_true, if_false] at hpin hcl
    rw [Bool.or_eq_true, decide_eq_true_eq, decide_eq_true_eq] at hcl
    rcases hcl with hlt | hgt
    · rcases hpin with ⟨he, hout⟩ | ⟨he, hout⟩
      · have : clamp p.lo p.hi (p.rawAcc s e dt) = p.lo := by
          rw [clamp, if_pos (by linarith), if_neg (by linarith)]
        rw [this] at hout
        exact absurd hout (by intro h; exact absurd h (by linarith))
      · exact h2 ⟨hlt, he⟩
    · rcases hpin with ⟨he, hout⟩ | ⟨he, hout⟩
      · exact h1 ⟨hgt, he⟩
      · have : clamp p.lo p.hi (p.rawAcc s e dt) = p.hi := by
          rw [clamp, if_neg (by linarith), if_pos (by linarith)]
        rw [this] at hout
        exact absurd hout (by intro h; exact absurd h (by linarith))

/-- Claim C4: across any sequence of advance calls during which the output is
pinned at an output limit with the error keeping the sign of the clamp
direction, the integral sum does not change at all — the anti-windup policy
skips accumulation entirely. -/
theorem C4_antiwindup (p : PidParams) (hlh : p.lo < p.hi) :
    ∀ (inputs : List (ℚ × ℚ)) (s : PidState),
      p.saturatedRun s inputs = true →
      (p.run s inputs).integral_sum = s.integral_sum := by
  intro inputs
  induction inputs with
  | nil => intro s _; rfl
  | cons hd tl ih =>
      obtain ⟨e, dt⟩ := hd
      intro s hsat
      simp only [PidParams.saturatedRun] at hsat
      rw [Bool.and_eq_true, Bool.and_eq_true, Bool.and_eq_true] at hsat
      obtain ⟨⟨⟨_, hor⟩, hclamp⟩, hrest⟩ := hsat
      have hpin : (0 < e ∧ (p.advance s e dt).1 = p.hi) ∨
                  (e < 0 ∧ (p.advance s e dt).1 = p.lo) := by
        rw [Bool.or_eq_true] at hor
        rcases hor with h | h
        · rw [Bool.and_eq_true, decide_eq_true_eq, decide_eq_true_eq] at h
          exact Or.inl h
        · rw [Bool.and_eq_true, decide_eq_true_eq, decide_eq_true_eq] at h
          exact Or.inr h
      have hint := advance_pinned_integral p s e dt hlh hpin hclamp
      simp only [PidParams.run]
      rw [ih (p.advance s e dt).2.2 hrest, hint]

/-- Witness for C4 on the heater parameters with one saturated tick of error
70 at dt one fifth: the hypotheses hold and the integral stays put. -/
theorem C4_antiwindup_witness :
    heaterParams.lo < heaterParams.hi ∧
    heaterParams.saturatedRun freshPid [(70, 1/5)] = true ∧
    (heaterParams.run freshPid [(70, 1/5)]).integral_sum = freshPid.integral_sum := by
  have h1 : heaterParams.lo < heaterParams.hi := by norm_num [heaterParams]
  have h2 : heaterParams.saturatedRun freshPid [(70, 1/5)] = true := by
    norm_num [PidParams.saturatedRun, PidParams.advance, PidParams.skip,
      PidParams.rawAcc, PidParams.rawSkip, clamp, heaterParams, freshPid]
  exact ⟨h1, h2, C4_antiwindup heaterParams h1 [(70, 1/5)] freshPid h2⟩

/-- Claim C5: for the heater channel (setpoint 95, Kp 1.4, Ki 0.2, Kd 0.8,
measured 25, dt 0.2) the first tick output is the clamp of
1.4*70 + 0.2*70*0.2 + 0.8*70/0.2 into 0..100, namely 100, with clamping
reported, and the integral does not advance on this and the following
saturation-skipped ticks. -/
theorem C5_heater_first_tick :
    (heaterParams.advance freshPid (95 - 25) 0.2).1 = 100 ∧
    (heaterParams.advance freshPid (95 - 25) 0.2).2.1 = true ∧
    (heaterParams.advance freshPid (95 - 25) 0.2).2.2.integral_sum = 0 ∧
    clamp heaterParams.lo heaterParams.hi (1.4 * 70 + 0.2 * (70 * 0.2) + 0.8 * 70 / 0.2) = 100 ∧
    (heaterParams.run freshPid [(70, 0.2), (70, 0.2), (70, 0.2)]).integral_sum = 0 := by
  refine ⟨?_, ?_, ?_, ?_, ?_⟩ <;>
    norm_num [PidParams.advance, PidParams.run, PidParams.skip,
      PidParams.rawAcc, PidParams.rawSkip, clamp, heaterParams, freshPid]

/-- Claim C3: when any break level is tripped, one tick forces every channel
to Disabled with its output at the documented safe value regardless of prior
mode, an operator command issued while tripped leaves the channels untouched,
and acknowledging the interlock is what applies the held commands. -/
theorem C3_interlock_forces_safe (s : Scheduler) (dt : ℚ) (i : Nat) (cmd : Command)
    (h : s.tripped = true) :
    (∀ c ∈ (s.tick dt).channels, c.mode = Mode.Disabled ∧ c.output = c.safe_value) ∧
    (s.issue i cmd).channels = s.channels ∧
    ((s.issue i cmd).acknowledge_interlock).channels =
      applyPending s.channels (s.pending ++ [(i, cmd)]) := by
  refine ⟨?_, ?_, ?_⟩
  · intro c hc
    have ht : ({ s with channels := s.channels.map (fun c => c.controlStep dt) } :
        Scheduler).tripped = true := h
    rw [Scheduler.tick, interlockOverride, if_pos ht] at hc
    simp only [List.mem_map] at hc
    obtain ⟨a, _, rfl⟩ := hc
    exact ⟨rfl, rfl⟩
  · rw [Scheduler.issue, if_pos h]
  · rw [Scheduler.issue, if_pos h, Scheduler.acknowledge_interlock]

/-- Witness for C3 on the concrete tripped one-channel scheduler, with a
disable command at index 0 and dt 1. -/
theorem C3_interlock_forces_safe_witness :
    sampleScheduler.tripped = true ∧
    ((∀ c ∈ (sampleScheduler.tick 1).channels,
        c.mode = Mode.Disabled ∧ c.output = c.safe_value) ∧
     (sampleScheduler.issue 0 Command.disable).channels = sampleScheduler.channels ∧
     ((sampleScheduler.issue 0 Command.disable).acknowledge_interlock).channels =
       applyPending sampleScheduler.channels
         (sampleScheduler.pending ++ [(0, Command.disable)])) :=
  ⟨rfl, C3_interlock_forces_safe sampleScheduler 1 0 Command.disable rfl⟩

/-- Claim C8: on any user-interface state whose construction-time widget
ranges are intact, start_motor_sequence sets the DC motor PWM to 30, the
extrusion speed to 0.6, the fan duty cycle to 100 and the temperature
setpoint to 95, enables DC motor open loop and marks the device started,
while leaving the calibration, heater, camera, close-loop and break-level
flags unchanged. -/
theorem C8_start_motor_sequence_effect (s : UserInterface) (h : s.rangesIntact) :
    s.start_motor_sequence.dc_motor_pwm.value = 30 ∧
    s.start_motor_sequence.extrusion_motor_speed.value = 0.6 ∧
    s.start_motor_sequence.fan_duty_cycle.value = 100 ∧
    s.start_motor_sequence.target_temperature.value = 95 ∧
    s.start_motor_sequence.dc_motor_open_loop_enabled = true ∧
    s.start_motor_sequence.device_started = true ∧
    s.start_motor_sequence.start_motor_calibration = s.start_motor_calibration ∧
    s.start_motor_sequence.heater_open_loop_enabled = s.heater_open_loop_enabled ∧
    s.start_motor_sequence.camera_feedback_enabled = s.camera_feedback_enabled ∧
    s.start_motor_sequence.dc_motor_close_loop_enabled = s.dc_motor_close_loop_enabled ∧
    s.start_motor_sequence.break_level1_enabled = s.break_level1_enabled ∧
    s.start_motor_sequence.break_level2_enabled = s.break_level2_enabled ∧
    s.start_motor_sequence.break_level3_enabled = s.break_level3_enabled := by
  obtain ⟨hpl, hph, hel, heh, hfl, hfh, htl, hth⟩ := h
  refine ⟨?_, ?_, ?_, ?_, rfl, rfl, rfl, rfl, rfl, rfl, rfl, rfl, rfl⟩
  · rw [UserInterface.start_motor_sequence]
    simp only [QDoubleSpinBox.setValue, hpl, hph]
    norm_num [clamp]
  · rw [UserInterface.start_motor_sequence]
    simp only [QDoubleSpinBox.setValue, hel, heh]
    norm_num [clamp]
  · rw [UserInterface.start_motor_sequence]
    simp only [QSlider.setValue, hfl, hfh]
    norm_num [clampInt]
  · rw [UserInterface.start_motor_sequence]
    simp only [QSlider.setValue, htl, hth]
    norm_num [clampInt]

/-- Witness for C8 on a freshly constructed interface with stored coefficient
1: the range hypothesis holds there and the conclusion follows. -/
theorem C8_start_motor_sequence_effect_witness :
    (UserInterface.init 1).rangesIntact ∧
    ((UserInterface.init 1).start_motor_sequence.dc_motor_pwm.value = 30 ∧
     (UserInterface.init 1).start_motor_sequence.extrusion_motor_speed.value = 0.6 ∧
     (UserInterface.init 1).start_motor_sequence.fan_duty_cycle.value = 100 ∧
     (UserInterface.init 1).start_motor_sequence.target_temperature.value = 95 ∧
     (UserInterface.init 1).start_motor_sequence.dc_motor_open_loop_enabled = true ∧
     (UserInterface.init 1).start_motor_sequence.device_started = true ∧
     (UserInterface.init 1).start_motor_sequence.start_motor_calibration =
       (UserInterface.init 1).start_motor_calibration ∧
     (UserInterface.init 1).start_motor_sequence.heater_open_loop_enabled =
       (UserInterface.init 1).heater_open_loop_enabled ∧
     (UserInterface.init 1).start_motor_sequence.camera_feedback_enabled =
       (UserInterface.init 1).camera_feedback_enabled ∧
     (UserInterface.init 1).start_motor_sequence.dc_motor_close_loop_enabled =
       (UserInterface.init 1).dc_motor_close_loop_enabled ∧
     (UserInterface.init 1).start_motor_sequence.break_level1_enabled =
       (UserInterface.init 1).break_level1_enabled ∧
     (UserInterface.init 1).start_motor_sequence.break_level2_enabled =
       (UserInterface.init 1).break_level2_enabled ∧
     (UserInterface.init 1).start_motor_sequence.break_level3_enabled =
       (UserInterface.init 1).break_level3_enabled) := by
  have h : (UserInterface.init 1).rangesIntact := by
    refine ⟨?_, ?_, ?_, ?_, ?_, ?_, ?_, ?_⟩ <;>
      norm_num [UserInterface.init, UserInterface.rangesIntact,
        add_dc_motor_controls, add_motor_controls, add_fan_controls,
        add_temperature_controls, QSlider.default, QSlider.setMinimum,
        QSlider.setMaximum, QSlider.setValue, QDoubleSpinBox.default,
        QDoubleSpinBox.setMinimum, QDoubleSpinBox.setMaximum,
        QDoubleSpinBox.setValue, QDoubleSpinBox.setSingleStep,
        QDoubleSpinBox.setDecimals, clamp, clampInt]
  exact ⟨h, C8_start_motor_sequence_effect (UserInterface.init 1) h⟩
